import Mathlib

/-!
Shallow embedding of the two Ansible modules of community.cockroachdb:
`plugins/modules/cockroachdb_db.py` (database reconciler) and
`plugins/modules/cockroachdb_query.py` (query executor), together with
theorems settling the specification claims about them.

The database server, the psycopg2 driver and the ansible-core harness are
external collaborators; they are modelled as small oracles (a catalog
list, a cursor record describing the driver's reaction to this
invocation, and a failure oracle for statement execution).  Every piece
of module logic — string building, branching, truthiness tests, the
statement log, the placement of `close()` calls — is translated directly
from the Python source.
-/

namespace CockroachDB

/-- One row of the `SHOW DATABASES` catalog listing, as consumed by
`CockroachDBDatabase.__fetch_info` (dict cursor: keys `database_name`,
`owner`, `primary_region`, `regions`, `survival_goal`). -/
structure DBEntry where
  database_name : String
  owner : String
  primary_region : Option String
  regions : List String
  survival_goal : Option String
deriving Repr, DecidableEq

/-- The module parameters of `cockroachdb_db` relevant to reconciliation:
`name`, `state`, `owner`, the undocumented `target`, plus the ansible
check-mode flag (`module.check_mode`). -/
structure DbParams where
  name : String
  state : String
  owner : Option String
  target : Option String
  check_mode : Bool
deriving Repr, DecidableEq

/-- Python truthiness of an optional string parameter:
`None` and the empty string are falsy (`if self.module.params['owner']:`). -/
def truthy : Option String → Bool
  | none => false
  | some s => !s.isEmpty

/-- The state of a `CockroachDBDatabase` object after `__init__` ran
`__fetch_info`.  The source field `exists` is spelled `dbExists` here. -/
structure CockroachDBDatabase where
  name : String
  dbExists : Bool
  primary_region : Option String
  regions : List String
  survive_failure : Option String
  owner : Option String
deriving Repr, DecidableEq

/-- `CockroachDBDatabase.__fetch_info`: iterate over the `SHOW DATABASES`
rows; every row whose `database_name` equals `self.name` overwrites the
descriptor fields and sets `exists = True`.  Fields start at the
constructor defaults. -/
def fetchInfo (catalog : List DBEntry) (name : String) : CockroachDBDatabase :=
  catalog.foldl
    (fun st d =>
      if d.database_name = name then
        { st with
          dbExists := true, owner := some d.owner,
          primary_region := d.primary_region, regions := d.regions,
          survive_failure := d.survival_goal }
      else st)
    { name := name, dbExists := false, primary_region := none, regions := [],
      survive_failure := none, owner := none }

/-- The SQL text built by `CockroachDBDatabase.create`:
`'CREATE DATABASE "%s"' % self.name`, then, when the `owner` parameter is
truthy, `query += 'OWNER %s' % owner` — note that the source appends the
owner clause with no separating space. -/
def createStmt (p : DbParams) : String :=
  let query := "CREATE DATABASE \"" ++ p.name ++ "\""
  if truthy p.owner then query ++ "OWNER " ++ p.owner.getD "" else query

/-- The SQL text built by `CockroachDBDatabase.drop`. -/
def dropStmt (name : String) : String :=
  "DROP DATABASE \"" ++ name ++ "\""

/-- The SQL text built by `CockroachDBDatabase.__change_owner`. -/
def alterOwnerStmt (name newOwner : String) : String :=
  "ALTER DATABASE \"" ++ name ++ "\" OWNER TO " ++ newOwner

/-- Environment model (database server, external collaborator): the
catalog effect of a successful `CREATE DATABASE`.  The new database is
owned by the requested owner when an owner clause was sent, otherwise by
the connecting session user. -/
def applyCreate (sessionUser : String) (p : DbParams) (cat : List DBEntry) :
    List DBEntry :=
  cat ++ [{ database_name := p.name,
            owner := if truthy p.owner then p.owner.getD "" else sessionUser,
            primary_region := none, regions := [], survival_goal := none }]

/-- Environment model (database server): catalog effect of
`ALTER DATABASE ... OWNER TO ...`. -/
def applyAlterOwner (name newOwner : String) (cat : List DBEntry) :
    List DBEntry :=
  cat.map (fun d =>
    if d.database_name = name then { d with owner := newOwner } else d)

/-- Environment model (database server): catalog effect of
`DROP DATABASE`. -/
def applyDrop (name : String) (cat : List DBEntry) : List DBEntry :=
  cat.filter (fun d => d.database_name ≠ name)

/-- `CockroachDBDatabase.create`: return early in check mode; otherwise
build the statement, execute it (the failure oracle `execFails` says
whether the driver raises), and append it to `executed_statements`. -/
def CockroachDBDatabase.create (sessionUser : String)
    (execFails : String → Bool) (p : DbParams) (cat : List DBEntry)
    (log : List String) : Except String (List DBEntry × List String) :=
  if p.check_mode then Except.ok (cat, log)
  else
    let query := createStmt p
    if execFails query then Except.error ("statement failed: " ++ query)
    else Except.ok (applyCreate sessionUser p cat, log ++ [query])

/-- `CockroachDBDatabase.drop`: return early in check mode; otherwise
execute `DROP DATABASE "<name>"` and append it to the log. -/
def CockroachDBDatabase.drop (execFails : String → Bool) (p : DbParams)
    (cat : List DBEntry) (log : List String) :
    Except String (List DBEntry × List String) :=
  if p.check_mode then Except.ok (cat, log)
  else
    let query := dropStmt p.name
    if execFails query then Except.error ("statement failed: " ++ query)
    else Except.ok (applyDrop p.name cat, log ++ [query])

/-- `CockroachDBDatabase.__change_owner`: execute the `ALTER DATABASE`
statement and append it to the log. -/
def CockroachDBDatabase.changeOwner (execFails : String → Bool)
    (name newOwner : String) (cat : List DBEntry) (log : List String) :
    Except String (List DBEntry × List String) :=
  let query := alterOwnerStmt name newOwner
  if execFails query then Except.error ("statement failed: " ++ query)
  else Except.ok (applyAlterOwner name newOwner cat, log ++ [query])

/-- `CockroachDBDatabase.modify(owner, target)`: `changed = False`; when
the `owner` parameter is truthy, return `True` at once in check mode,
otherwise call `__change_owner` and set `changed = True`.  The current
catalog owner is never consulted, and `target` is never read. -/
def CockroachDBDatabase.modify (execFails : String → Bool) (p : DbParams)
    (cat : List DBEntry) (log : List String) :
    Except String (Bool × List DBEntry × List String) :=
  if truthy p.owner then
    if p.check_mode then Except.ok (true, cat, log)
    else
      match CockroachDBDatabase.changeOwner execFails p.name
          (p.owner.getD "") cat log with
      | Except.error e => Except.error e
      | Except.ok (cat2, log2) => Except.ok (true, cat2, log2)
  else Except.ok (false, cat, log)

/-- Outcome of a full `cockroachdb_db.main()` run.  On success the
outcome carries `(changed, executed_statements, final catalog)`; an
unhandled driver exception is `Except.error`.  `sessionClosed` records
whether `cursor.close(); conn.close()` (source lines 202–203) was reached
before the process reported its result. -/
structure DbRun where
  outcome : Except String (Bool × List String × List DBEntry)
  sessionClosed : Bool
deriving Repr

/-- The `changed` flag of a run (false when the run crashed). -/
def DbRun.changedOf (r : DbRun) : Bool :=
  match r.outcome with
  | Except.ok (c, _, _) => c
  | Except.error _ => false

/-- The catalog left behind by a run (unchanged input is never needed for
a crashed run, which reports nothing). -/
def DbRun.catalogOf (r : DbRun) : List DBEntry :=
  match r.outcome with
  | Except.ok (_, _, cat) => cat
  | Except.error _ => []

/-- `cockroachdb_db.main()`: fetch catalog info (executes
`SHOW DATABASES`), then branch on `state` / `database.exists` exactly as
source lines 189–199, then close the session and report.  There is no
exception handling in the source: a failing statement propagates and the
`close()` calls are never reached. -/
def dbMain (sessionUser : String) (execFails : String → Bool)
    (p : DbParams) (cat : List DBEntry) : DbRun :=
  if execFails "SHOW DATABASES" then
    { outcome := Except.error "statement failed: SHOW DATABASES",
      sessionClosed := false }
  else
    let db := fetchInfo cat p.name
    let job : Except String (Bool × List DBEntry × List String) :=
      if p.state = "present" then
        if !db.dbExists then
          match CockroachDBDatabase.create sessionUser execFails p cat [] with
          | Except.error e => Except.error e
          | Except.ok (cat2, log2) => Except.ok (true, cat2, log2)
        else
          CockroachDBDatabase.modify execFails p cat []
      else
        if db.dbExists then
          match CockroachDBDatabase.drop execFails p cat [] with
          | Except.error e => Except.error e
          | Except.ok (cat2, log2) => Except.ok (true, cat2, log2)
        else Except.ok (false, cat, [])
    match job with
    | Except.error e => { outcome := Except.error e, sessionClosed := false }
    | Except.ok (c, cat2, log2) =>
        { outcome := Except.ok (c, log2, cat2), sessionClosed := true }

/-- The all-statements-succeed failure oracle. -/
def noFail : String → Bool := fun _ => false

/-- Whether an `Except` outcome is a success. -/
def exceptOk {α : Type} : Except String α → Bool
  | Except.ok _ => true
  | Except.error _ => false

/-- Sample parameters: reconcile `test_db` to `state=present` with
`owner=alice`, outside check mode. -/
def pPresentAlice : DbParams :=
  { name := "test_db", state := "present", owner := some "alice",
    target := none, check_mode := false }

/-- Sample catalog: `test_db` exists and is owned by `bob`. -/
def catOwnedBob : List DBEntry :=
  [{ database_name := "test_db", owner := "bob", primary_region := none,
     regions := [], survival_goal := none }]

/-- Sample catalog: `test_db` exists and is owned by `alice`. -/
def catOwnedAlice : List DBEntry :=
  [{ database_name := "test_db", owner := "alice", primary_region := none,
     regions := [], survival_goal := none }]

/-- A normalized `datetime.timedelta` value (seconds in `0..86399`,
microseconds in `0..999999`, as Python keeps them). -/
structure Timedelta where
  days : Int
  seconds : Nat
  microseconds : Nat
deriving Repr, DecidableEq

/-- Two-digit zero padding, as in the `%02d` fields of
`timedelta.__str__`. -/
def pad2 (n : Nat) : String :=
  if n < 10 then "0" ++ toString n else toString n

/-- Six-digit zero padding for the microsecond field of
`timedelta.__str__`. -/
def pad6 (n : Nat) : String :=
  let s := toString n
  String.mk (List.replicate (6 - s.length) '0') ++ s

/-- Model of Python's `str(datetime.timedelta)`: `"H:MM:SS"`, with
`".ffffff"` appended when microseconds are nonzero, and prefixed by
`"D day, "` or `"D days, "` when the day count is nonzero (singular
exactly for 1 and -1). -/
def timedeltaStr (t : Timedelta) : String :=
  let hh := t.seconds / 3600
  let mm := t.seconds % 3600 / 60
  let ss := t.seconds % 60
  let base := toString hh ++ ":" ++ pad2 mm ++ ":" ++ pad2 ss
  let base := if t.microseconds ≠ 0 then base ++ "." ++ pad6 t.microseconds
              else base
  if t.days ≠ 0 then
    toString t.days ++ (if t.days = 1 ∨ t.days = -1 then " day, " else " days, ")
      ++ base
  else base

/-- A scalar value held in a result row, a closed sum over the kinds the
driver can return.  Floats and decimals are modelled as exact rationals
(no floating-point rounding is relevant to the claims). -/
inductive Value where
  | vint : Int → Value
  | vstr : String → Value
  | vbool : Bool → Value
  | vnull : Value
  | vfloat : Rat → Value
  | vdecimal : Rat → Value
  | vinterval : Timedelta → Value
deriving Repr, DecidableEq

/-- Membership test `type(elem) in TYPES_NEED_TO_CONVERT` where
`TYPES_NEED_TO_CONVERT = (decimal.Decimal, datetime.timedelta)`. -/
def typeNeedsConvert : Value → Bool
  | Value.vdecimal _ => true
  | Value.vinterval _ => true
  | _ => false

/-- `convert_to_supported(val)`: `Decimal` becomes `float`, `timedelta`
becomes `str`, everything else is returned unchanged. -/
def convert_to_supported : Value → Value
  | Value.vdecimal d => Value.vfloat d
  | Value.vinterval t => Value.vstr (timedeltaStr t)
  | v => v

/-- `fetch_from_cursor(cursor)` applied to the row list the cursor would
yield: every element whose type is in `TYPES_NEED_TO_CONVERT` is replaced
by `convert_to_supported(elem)`, elementwise in every row. -/
def fetch_from_cursor (rows : List (List Value)) : List (List Value) :=
  rows.map (fun row =>
    row.map (fun elem =>
      if typeNeedsConvert elem then convert_to_supported elem else elem))

/-- The parameter payload chosen by `get_args`. -/
inductive Args where
  | positional : List Value → Args
  | named : List (String × Value) → Args
deriving Repr, DecidableEq

/-- `get_args(positional_args, named_args)`: the positional list when
truthy, else the named mapping when truthy, else `None` ('None' and an
empty collection are both falsy). -/
def get_args (positional_args : Option (List Value))
    (named_args : Option (List (String × Value))) : Option Args :=
  if !(positional_args.getD []).isEmpty then
    some (Args.positional (positional_args.getD []))
  else if !(named_args.getD []).isEmpty then
    some (Args.named (named_args.getD []))
  else none

/-- How the driver reacts when `fetch_from_cursor` iterates the cursor:
it yields rows, or raises `psycopg2.ProgrammingError` with some message,
or raises some other exception. -/
inductive FetchOutcome where
  | rows : List (List Value) → FetchOutcome
  | progError : String → FetchOutcome
  | otherError : String → FetchOutcome
deriving Repr, DecidableEq

/-- Oracle describing the driver's reaction to this invocation's
`mogrify`/`execute`/iteration calls: `execError` is the message of the
exception raised by `cursor.mogrify`/`cursor.execute` (or `none` when
they succeed), and `fetchOutcome` is what iterating the cursor does. -/
structure Cursor where
  statusmessage : Option String
  rowcount : Int
  mogrified : String
  execError : Option String
  fetchOutcome : FetchOutcome
deriving Repr, DecidableEq

/-- The tuple assembled by a successful `execute` in
`cockroachdb_query`: status message, rowcount, mogrified query text and
the (converted) result rows. -/
structure QueryOutput where
  statusmessage : Option String
  rowcount : Option Int
  query : String
  query_result : List (List Value)
deriving Repr, DecidableEq

/-- Result of `execute(module, cursor, query, args)`: either the
returned tuple, or a `module.fail_json` exit with its message. -/
inductive ExecResult where
  | ok : QueryOutput → ExecResult
  | failed : String → ExecResult
deriving Repr, DecidableEq

/-- `execute(module, cursor, query, args)`: mogrify and execute inside
the outer `try` (a failure there exits with `Cannot execute query ...`);
then fetch inside the inner `try`.  A `Psycopg2ProgrammingError` raised
while fetching is caught and — whatever its message — never re-raised:
the `if` body is `pass` and there is no `else` branch, so `query_result`
stays `[]` and the function returns normally.  Any other fetch exception
exits with `Cannot fetch rows from cursor: ...`. -/
def execute (cur : Cursor) (query : String) (args : Option Args) :
    ExecResult :=
  match cur.execError with
  | some e => ExecResult.failed ("Cannot execute query \"" ++ query ++ "\": " ++ e)
  | none =>
    match cur.fetchOutcome with
    | FetchOutcome.rows rs =>
        ExecResult.ok
          { statusmessage := cur.statusmessage, rowcount := some cur.rowcount,
            query := cur.mogrified, query_result := fetch_from_cursor rs }
    | FetchOutcome.progError _ =>
        ExecResult.ok
          { statusmessage := cur.statusmessage, rowcount := some cur.rowcount,
            query := cur.mogrified, query_result := [] }
    | FetchOutcome.otherError e =>
        ExecResult.failed ("Cannot fetch rows from cursor: " ++ e)

/-- The module parameters of `cockroachdb_query`. -/
structure QueryParams where
  query : String
  positional_args : Option (List Value)
  named_args : Option (List (String × Value))
deriving Repr, DecidableEq

/-- Outcome of a full `cockroachdb_query.main()` run: argument
validation failure (`AnsibleModule` rejects the parameters before any
connection), a `fail_json` exit, or the final `exit_json` payload with
its `changed` flag. -/
inductive QueryRunOutcome where
  | rejected : String → QueryRunOutcome
  | failed : String → QueryRunOutcome
  | ok : Bool → QueryOutput → QueryRunOutcome
deriving Repr, DecidableEq

/-- Whether the outcome is a successful `exit_json`. -/
def QueryRunOutcome.isOk : QueryRunOutcome → Bool
  | QueryRunOutcome.ok _ _ => true
  | _ => false

/-- The `changed` flag reported on success (`false` otherwise). -/
def QueryRunOutcome.changedOf : QueryRunOutcome → Bool
  | QueryRunOutcome.ok c _ => c
  | _ => false

/-- A `cockroachdb_query.main()` run: whether a database connection was
made, whether `cursor.close(); conn.close()` ran before the result was
reported, and the outcome. -/
structure QueryRun where
  connected : Bool
  sessionClosed : Bool
  outcome : QueryRunOutcome
deriving Repr, DecidableEq

/-- `cockroachdb_query.main()`: `AnsibleModule` is constructed with
`mutually_exclusive=(('positional_args', 'named_args'),)` and (modelled
from ansible-core's documented behaviour) exits at construction time,
before `cockroachdb.connect`, when both parameters are non-`None`.
Otherwise: connect, pick the args, run `execute` — whose `fail_json`
exits the process at once, before the `close()` calls on source lines
265–266 — and on success close the session and `exit_json` with
`changed=True` (source line 272). -/
def queryMain (p : QueryParams) (cur : Cursor) : QueryRun :=
  if p.positional_args.isSome && p.named_args.isSome then
    { connected := false, sessionClosed := false,
      outcome := QueryRunOutcome.rejected
        "parameters are mutually exclusive: positional_args|named_args" }
  else
    let args := get_args p.positional_args p.named_args
    match execute cur p.query args with
    | ExecResult.failed e =>
        { connected := true, sessionClosed := false,
          outcome := QueryRunOutcome.failed e }
    | ExecResult.ok out =>
        { connected := true, sessionClosed := true,
          outcome := QueryRunOutcome.ok true out }

/-- Sanity anchors: the happy-path `CREATE DATABASE` run, the spec's
interval example, and a plain successful query run evaluate as
expected. -/
theorem sanity_examples :
    (dbMain "root" noFail
      { name := "test_db", state := "present", owner := none, target := none,
        check_mode := false } []).outcome
      = Except.ok (true, ["CREATE DATABASE \"test_db\""],
          [{ database_name := "test_db", owner := "root",
             primary_region := none, regions := [], survival_goal := none }]) ∧
    timedeltaStr { days := 1, seconds := 7200, microseconds := 0 }
      = "1 day, 2:00:00" ∧
    queryMain { query := "SELECT 1", positional_args := none, named_args := none }
      { statusmessage := some "SELECT 1", rowcount := 1, mogrified := "SELECT 1",
        execError := none, fetchOutcome := FetchOutcome.rows [[Value.vint 1]] }
      = { connected := true, sessionClosed := true,
          outcome := QueryRunOutcome.ok true
            { statusmessage := some "SELECT 1", rowcount := some 1,
              query := "SELECT 1", query_result := [[Value.vint 1]] } } :=
  ⟨by rfl, by rfl, by rfl⟩

/-- C1: the claim says an `ALTER DATABASE ... OWNER TO ...` statement is
issued and `changed=true` reported exactly when the desired owner differs
from the catalog's current owner, and that matching owners issue zero
statements with `changed=false`.  Evaluating the code at a catalog where
`test_db` is already owned by `alice` and the requested owner is `alice`:
the module still issues the `ALTER` statement and reports `changed=true`,
because `modify` never consults the fetched current owner. -/
theorem c1_owner_match_still_alters :
    dbMain "root" noFail pPresentAlice catOwnedAlice
      = { outcome := Except.ok
            (true, ["ALTER DATABASE \"test_db\" OWNER TO alice"], catOwnedAlice),
          sessionClosed := true } := by rfl

/-- C2: the claim says any fixed parameter set run twice in succession
yields `changed=true` then `changed=false`.  Evaluating the code with
`state=present, owner=alice` starting from a catalog where `test_db` is
owned by `bob`: the first run reports `changed=true`, and the second run
— on the catalog the first run left behind — again issues an `ALTER` and
reports `changed=true`, not `false`. -/
theorem c2_second_present_run_still_changed :
    (dbMain "root" noFail pPresentAlice catOwnedBob).changedOf = true ∧
    (dbMain "root" noFail pPresentAlice
        ((dbMain "root" noFail pPresentAlice catOwnedBob).catalogOf)).changedOf
      = true ∧
    (dbMain "root" noFail pPresentAlice
        ((dbMain "root" noFail pPresentAlice catOwnedBob).catalogOf)).outcome
      = Except.ok (true, ["ALTER DATABASE \"test_db\" OWNER TO alice"],
          catOwnedAlice) :=
  ⟨by rfl, by rfl, by rfl⟩

/-- C3: the claim says creating a non-existing database with a desired
owner executes a single well-formed `CREATE DATABASE "<name>"` statement
with a whitespace separator before the `OWNER` keyword.  Evaluating the
code on an empty catalog with `owner=bob`: the one logged statement is
`CREATE DATABASE "test_db"OWNER bob` — the owner clause is concatenated
directly after the closing quote with no separating space. -/
theorem c3_create_owner_clause_missing_space :
    (dbMain "root" noFail
        { name := "test_db", state := "present", owner := some "bob",
          target := none, check_mode := false } []).outcome
      = Except.ok (true, ["CREATE DATABASE \"test_db\"OWNER bob"],
          [{ database_name := "test_db", owner := "bob", primary_region := none,
             regions := [], survival_goal := none }]) ∧
    "CREATE DATABASE \"test_db\"OWNER bob"
      ≠ "CREATE DATABASE \"test_db\" OWNER bob" :=
  ⟨by rfl, by decide⟩

/-- C4: in check mode every branch of the reconciler executes no
statement (the log stays empty and the catalog is untouched), closes the
session normally, and reports the very `changed` verdict a run outside
check mode would report for the same invocation. -/
theorem c4_check_mode_frame (user : String) (ef : String → Bool)
    (p : DbParams) (cat : List DBEntry) (h : ef "SHOW DATABASES" = false) :
    dbMain user ef { p with check_mode := true } cat
      = { outcome := Except.ok
            ((dbMain user noFail { p with check_mode := false } cat).changedOf,
             [], cat),
          sessionClosed := true } := by
  by_cases hs : p.state = "present" <;>
    rcases he : (fetchInfo cat p.name).dbExists <;>
    rcases ho : truthy p.owner <;>
    simp [dbMain, h, hs, he, ho, noFail, DbRun.changedOf,
      CockroachDBDatabase.create, CockroachDBDatabase.modify,
      CockroachDBDatabase.drop, CockroachDBDatabase.changeOwner]

/-- C4 witness: the frame property at a concrete create-branch input. -/
theorem c4_check_mode_frame_witness :
    dbMain "root" noFail
        { name := "test_db", state := "present", owner := none, target := none,
          check_mode := true } []
      = { outcome := Except.ok
            ((dbMain "root" noFail
                { name := "test_db", state := "present", owner := none,
                  target := none, check_mode := false } []).changedOf,
             [], []),
          sessionClosed := true } :=
  c4_check_mode_frame "root" noFail
    { name := "test_db", state := "present", owner := none, target := none,
      check_mode := false } [] (by rfl)

/-- C5: the claim says any fetch failure other than the benign
"no results to fetch" condition is fatal and surfaced distinctly, never
silently ignored.  Evaluating the code at a cursor whose row fetch raises
a `ProgrammingError` with a different message: the handler's `if` has no
`else`, so the error is swallowed and `execute` returns a successful
result with an empty row list instead of failing. -/
theorem c5_fetch_prog_error_swallowed :
    execute
      { statusmessage := some "SELECT 1", rowcount := 0,
        mogrified := "SELECT 1", execError := none,
        fetchOutcome := FetchOutcome.progError "cursor already closed" }
      "SELECT 1" none
      = ExecResult.ok
          { statusmessage := some "SELECT 1", rowcount := some 0,
            query := "SELECT 1", query_result := [] } := by rfl

/-- Elementwise, the guarded replacement done in `fetch_from_cursor`
agrees with applying `convert_to_supported` outright. -/
theorem convert_guard_eq (e : Value) :
    (if typeNeedsConvert e then convert_to_supported e else e)
      = convert_to_supported e := by
  cases e <;> rfl

/-- C6: value normalization maps a decimal to the corresponding float, an
interval to its canonical string form, leaves every other value
unchanged, and is applied elementwise to every row of the result set. -/
theorem c6_normalization (rows : List (List Value)) (d : Rat) (t : Timedelta)
    (v : Value) (h : typeNeedsConvert v = false) :
    convert_to_supported (Value.vdecimal d) = Value.vfloat d ∧
    convert_to_supported (Value.vinterval t) = Value.vstr (timedeltaStr t) ∧
    convert_to_supported v = v ∧
    fetch_from_cursor rows
      = rows.map (fun row => row.map convert_to_supported) := by
  refine ⟨rfl, rfl, ?_, ?_⟩
  · cases v <;> simp_all [typeNeedsConvert, convert_to_supported]
  · simp [fetch_from_cursor, convert_guard_eq]

/-- C6 witness: normalization at the spec's own examples — the decimal
`12.50` (the rational 25/2), the interval "1 day, 2:00:00", and a plain
integer — applied to a concrete row. -/
theorem c6_normalization_witness :
    typeNeedsConvert (Value.vint 7) = false ∧
    (convert_to_supported (Value.vdecimal (25 / 2)) = Value.vfloat (25 / 2) ∧
     convert_to_supported
         (Value.vinterval { days := 1, seconds := 7200, microseconds := 0 })
       = Value.vstr (timedeltaStr { days := 1, seconds := 7200, microseconds := 0 }) ∧
     convert_to_supported (Value.vint 7) = Value.vint 7 ∧
     fetch_from_cursor [[Value.vdecimal (25 / 2), Value.vint 7]]
       = [[Value.vdecimal (25 / 2), Value.vint 7]].map
           (fun row => row.map convert_to_supported)) :=
  ⟨by rfl,
   c6_normalization [[Value.vdecimal (25 / 2), Value.vint 7]] (25 / 2)
     { days := 1, seconds := 7200, microseconds := 0 } (Value.vint 7) (by rfl)⟩

/-- C7: when both `positional_args` and `named_args` are supplied, the
invocation is rejected at module construction, before any connection is
made — no connection, no execution, no result. -/
theorem c7_mutual_exclusion_rejected (p : QueryParams) (cur : Cursor)
    (h1 : p.positional_args.isSome = true) (h2 : p.named_args.isSome = true) :
    queryMain p cur
      = { connected := false, sessionClosed := false,
          outcome := QueryRunOutcome.rejected
            "parameters are mutually exclusive: positional_args|named_args" } := by
  simp [queryMain, h1, h2]

/-- C7 witness: the rejection at a concrete pair of payloads. -/
theorem c7_mutual_exclusion_rejected_witness :
    queryMain
        { query := "SELECT 1", positional_args := some [Value.vint 1],
          named_args := some [("a", Value.vint 1)] }
        { statusmessage := none, rowcount := 0, mogrified := "SELECT 1",
          execError := none, fetchOutcome := FetchOutcome.rows [] }
      = { connected := false, sessionClosed := false,
          outcome := QueryRunOutcome.rejected
            "parameters are mutually exclusive: positional_args|named_args" } :=
  c7_mutual_exclusion_rejected
    { query := "SELECT 1", positional_args := some [Value.vint 1],
      named_args := some [("a", Value.vint 1)] }
    { statusmessage := none, rowcount := 0, mogrified := "SELECT 1",
      execError := none, fetchOutcome := FetchOutcome.rows [] }
    (by rfl) (by rfl)

/-- The `changed` flag a query run reports coincides with its run having
reached `exit_json`. -/
theorem queryMain_changed_eq_isOk (p : QueryParams) (cur : Cursor) :
    (queryMain p cur).outcome.changedOf = (queryMain p cur).outcome.isOk := by
  simp only [queryMain]
  split
  · rfl
  · split <;> rfl

/-- C8: every successfully completed query invocation reports
`changed=true`, whatever SQL text was submitted. -/
theorem c8_always_changed (p : QueryParams) (cur : Cursor)
    (h : (queryMain p cur).outcome.isOk = true) :
    (queryMain p cur).outcome.changedOf = true := by
  rw [queryMain_changed_eq_isOk]
  exact h

/-- C8 witness: `changed=true` on a concrete successful run. -/
theorem c8_always_changed_witness :
    (queryMain { query := "SELECT 1", positional_args := none, named_args := none }
        { statusmessage := some "SELECT 1", rowcount := 1, mogrified := "SELECT 1",
          execError := none,
          fetchOutcome := FetchOutcome.rows [[Value.vint 1]] }).outcome.changedOf
      = true :=
  c8_always_changed
    { query := "SELECT 1", positional_args := none, named_args := none }
    { statusmessage := some "SELECT 1", rowcount := 1, mogrified := "SELECT 1",
      execError := none, fetchOutcome := FetchOutcome.rows [[Value.vint 1]] }
    (by rfl)

/-- C9 counterexample: the claim says the session is released (cursor
closed, then connection closed) on every exit path, including fatal
statement failures.  Evaluating the query handler at a cursor whose
`execute` raises: `fail_json` exits before the `close()` calls are
reached, so the failure is reported with the session still open. -/
theorem c9_failed_statement_session_not_closed :
    queryMain { query := "SELEC 1", positional_args := none, named_args := none }
        { statusmessage := none, rowcount := -1, mogrified := "SELEC 1",
          execError := some "syntax error", fetchOutcome := FetchOutcome.rows [] }
      = { connected := true, sessionClosed := false,
          outcome := QueryRunOutcome.failed
            "Cannot execute query \"SELEC 1\": syntax error" } := by rfl

/-- C9 (amended): in both command handlers the session is released
(cursor closed, then connection closed) before the result is reported
exactly on the successful exit paths; on a fatal statement or row-fetch
failure — and, for the query handler, on parameter rejection, where no
session was ever acquired — the invocation reports without the handler
having released the session. -/
theorem c9_release_iff_success (user : String) (ef : String → Bool)
    (dp : DbParams) (cat : List DBEntry) (qp : QueryParams) (cur : Cursor) :
    (dbMain user ef dp cat).sessionClosed
        = exceptOk (dbMain user ef dp cat).outcome ∧
    (queryMain qp cur).sessionClosed = (queryMain qp cur).outcome.isOk := by
  constructor
  · simp only [dbMain]
    split
    · rfl
    · split <;> rfl
  · simp only [queryMain]
    split
    · rfl
    · split <;> rfl

/-- C10: the undocumented `target` parameter is accepted and never read —
two invocations identical except for `target` execute the same statements
and report the same verdict (they are the same run). -/
theorem c10_target_has_no_effect (user : String) (ef : String → Bool)
    (p : DbParams) (cat : List DBEntry) (t1 t2 : Option String) :
    dbMain user ef { p with target := t1 } cat
      = dbMain user ef { p with target := t2 } cat := by rfl

end CockroachDB
